import Mathlib

/-!
Verification of the output-validation core of `packages/nodes-base/nodes/Code/Sandbox.ts`:
a shallow embedding of the `Sandbox` validation methods (`validateRunCodeEachItem`,
`validateRunCodeAllItems`, `validateItem`, `validateTopLevelKeys`, `getTextKey`) over a
model of JavaScript runtime values, together with theorems about the validation pipeline.
-/

/-- A model of the JavaScript runtime values that can reach the validation layer:
`undefined`, `null`, booleans, numbers (modelled as integers; no claim depends on
float semantics), strings, arrays, and plain objects with ordered own fields. -/
inductive JSValue where
  | vUndefined : JSValue
  | vNull : JSValue
  | vBool (b : Bool) : JSValue
  | vNum (n : Int) : JSValue
  | vStr (s : String) : JSValue
  | vArr (elems : List JSValue) : JSValue
  | vObj (fields : List (String × JSValue)) : JSValue

/-- The JavaScript `=== undefined` test. -/
def isUndefined : JSValue → Bool
  | .vUndefined => true
  | _ => false

/-- JavaScript `typeof`. Note `typeof null === 'object'` and arrays are `'object'`. -/
def jsTypeof : JSValue → String
  | .vUndefined => "undefined"
  | .vNull => "object"
  | .vBool _ => "boolean"
  | .vNum _ => "number"
  | .vStr _ => "string"
  | .vArr _ => "object"
  | .vObj _ => "object"

/-- JavaScript `Array.isArray`. -/
def isArray : JSValue → Bool
  | .vArr _ => true
  | _ => false

/-- JavaScript string coercion (template-literal interpolation). Only the
non-object branches are ever interpolated by the validation code. -/
def jsToString : JSValue → String
  | .vUndefined => "undefined"
  | .vNull => "null"
  | .vBool b => if b then "true" else "false"
  | .vNum n => toString n
  | .vStr s => s
  | .vArr _ => ""
  | .vObj _ => "[object Object]"

/-- The own enumerable keys of a value, in iteration order — what the
`for (const key in item)` loop filtered by `hasOwnProperty` observes (that loop
iterates zero times on `null`/`undefined` without throwing). Primitive strings
and arrays expose their index keys; other primitives have none. `Object.keys`,
whose ToObject coercion additionally throws on `null`/`undefined`, is
`jsObjectKeys` below. -/
def jsOwnKeys : JSValue → List String
  | .vObj fields => fields.map Prod.fst
  | .vArr elems => (List.range elems.length).map toString
  | .vStr s => (List.range s.length).map toString
  | _ => []

/-- JavaScript `Object.keys`: coerces its argument to an object and returns the own
enumerable keys; on `null` and `undefined` the coercion throws `TypeError`
("Cannot convert undefined or null to object"), modelled as `none`. -/
def jsObjectKeys : JSValue → Option (List String)
  | .vNull => none
  | .vUndefined => none
  | v => some (jsOwnKeys v)

/-- Own-property lookup as used by destructuring `{ json, binary }`:
a missing property reads as `undefined`. -/
def getProp (v : JSValue) (key : String) : JSValue :=
  match v with
  | .vObj fields =>
    match fields.find? (fun p => p.1 == key) with
    | some p => p.2
    | none => .vUndefined
  | _ => .vUndefined

/-- Modelled from the spec: the `ValidationError` class (imported from
`./ValidationError`, not part of the given sources) — "message, a longer
description, and an optional item index", with the Reserved-Key-Found
specialization distinguished by a discriminant tag. -/
structure ValidationError where
  message : String
  description : String
  itemIndex : Option Nat
  reservedKeyFound : Bool
deriving DecidableEq

/-- Modelled from the spec: `isObject` (imported from `./utils`, not part of the
given sources) — "is a structured key-value object (not null, not array, not a
primitive)". -/
def isObject : JSValue → Bool
  | .vObj _ => true
  | _ => false

/-- `REQUIRED_N8N_ITEM_KEYS`: the reserved top-level item keys. -/
def REQUIRED_N8N_ITEM_KEYS : List String := ["json", "binary", "pairedItem", "error", "index"]

/-- Membership in `REQUIRED_N8N_ITEM_KEYS` (the `Set.has` test). -/
def isReservedKey (key : String) : Bool := REQUIRED_N8N_ITEM_KEYS.contains key

/-- The `textKeys.object` configuration of a `Sandbox` instance. -/
structure SandboxTextKeys where
  singular : String
  plural : String
deriving DecidableEq

/-- JavaScript `String.prototype.startsWith`, as a character-sequence prefix test. -/
def jsStartsWith (s pre : String) : Bool := pre.data.isPrefixOf s.data

/-- `getTextKey`: picks the singular or plural noun phrase and optionally
prefixes the indefinite article, chosen by whether the phrase starts with a
lowercase vowel character. -/
def getTextKey (tk : SandboxTextKeys) (includeArticle : Bool) (plural : Bool) : String :=
  let response := if plural then tk.plural else tk.singular
  if !includeArticle then
    response
  else if ["a", "e", "i", "o", "u"].any (fun value => jsStartsWith response value) then
    "an " ++ response
  else
    "a " ++ response

/-- Modelled from the spec: one element's coercion by the external
`normalizeItems` helper (§6) — "wraps bare payloads under `json` when no
reserved key is present"; an element already carrying a reserved key is kept
as a canonical item. -/
def normalizeOne (v : JSValue) : JSValue :=
  if (jsOwnKeys v).any isReservedKey then v else .vObj [("json", v)]

/-- Modelled from the spec: the external `normalizeItems` collaborator
(`this.helpers.normalizeItems`, §6), which is not part of the given sources.
It accepts "the (possibly non-array, e.g. `undefined`/single item) result" and
returns a sequence of items; `undefined` yields zero items. -/
def normalizeItems (executionData : JSValue) : List JSValue :=
  match executionData with
  | .vUndefined => []
  | .vArr elems => elems.map normalizeOne
  | v => [normalizeOne v]

/-- The error thrown by `validateItem` for a missing or malformed `json` field. -/
def jsonPropertyError (tk : SandboxTextKeys) (itemIndex : Nat) : ValidationError :=
  { message := "A 'json' property isn't " ++ getTextKey tk true false
    description := "In the returned data, every key named 'json' must point to " ++
      getTextKey tk true false ++ "."
    itemIndex := some itemIndex
    reservedKeyFound := false }

/-- The error thrown by `validateItem` for a defined but malformed `binary` field
(the stray right quotation mark in the description is verbatim from the source). -/
def binaryPropertyError (tk : SandboxTextKeys) (itemIndex : Nat) : ValidationError :=
  { message := "A 'binary' property isn't " ++ getTextKey tk true false
    description := "In the returned data, every key named 'binary’ must point to " ++
      getTextKey tk true false ++ "."
    itemIndex := some itemIndex
    reservedKeyFound := false }

/-- `validateItem`: destructures `{ json, binary }` and checks that `json` is a
defined structured object and that `binary`, when defined, is one too. -/
def validateItem (tk : SandboxTextKeys) (item : JSValue) (itemIndex : Nat) :
    Except ValidationError Unit :=
  let json := getProp item "json"
  let binary := getProp item "binary"
  if isUndefined json || !isObject json then
    .error (jsonPropertyError tk itemIndex)
  else if !isUndefined binary && !isObject binary then
    .error (binaryPropertyError tk itemIndex)
  else
    .ok ()

/-- The `ReservedKeyFoundError` subclass constructor. -/
def reservedKeyFoundError (reservedKey : String) (itemIndex : Nat) : ValidationError :=
  { message := "Invalid output format"
    description := "An output item contains the reserved key <code>" ++ reservedKey ++
      "</code>. To get around this, please wrap each item in an object, under a key called <code>json</code>. <a href=\"https://docs.n8n.io/data/data-structure/#data-structure\" target=\"_blank\">Example</a>"
    itemIndex := some itemIndex
    reservedKeyFound := true }

/-- The key-scanning loop of `validateTopLevelKeys`: walks the own keys in
iteration order, recording the first reserved key (`foundReservedKey ??= key`)
and accumulating the unknown keys in order. -/
def scanTopLevelKeys : List String → Option String → List String → Option String × List String
  | [], foundReservedKey, unknownKeys => (foundReservedKey, unknownKeys)
  | key :: rest, foundReservedKey, unknownKeys =>
    if isReservedKey key then
      scanTopLevelKeys rest
        (match foundReservedKey with
         | some k => some k
         | none => some key)
        unknownKeys
    else
      scanTopLevelKeys rest foundReservedKey (unknownKeys ++ [key])

/-- The generic unknown-top-level-key error thrown by `validateTopLevelKeys`. -/
def unknownKeyError (firstUnknown : String) (itemIndex : Nat) : ValidationError :=
  { message := "Unknown top-level item key: " ++ firstUnknown
    description := "Access the properties of an item under `.json`, e.g. `item.json`"
    itemIndex := some itemIndex
    reservedKeyFound := false }

/-- `validateTopLevelKeys`: raises on an unknown top-level key, as a
`ReservedKeyFoundError` when a reserved key is also present, else as a generic
error naming `unknownKeys[0]`. -/
def validateTopLevelKeys (item : JSValue) (itemIndex : Nat) : Except ValidationError Unit :=
  match scanTopLevelKeys (jsOwnKeys item) none [] with
  | (foundReservedKey, unknownKeys) =>
    if 0 < unknownKeys.length then
      match foundReservedKey with
      | some reservedKey => .error (reservedKeyFoundError reservedKey itemIndex)
      | none => .error (unknownKeyError (unknownKeys.headD "") itemIndex)
    else
      .ok ()

/-- `validateRunCodeEachItem`: the single-item entry point. -/
def validateRunCodeEachItem (tk : SandboxTextKeys) (executionResult : JSValue)
    (itemIndex : Nat) : Except ValidationError JSValue :=
  if jsTypeof executionResult != "object" then
    .error
      { message := "Code doesn't return " ++ getTextKey tk true false
        description := "Please return " ++ getTextKey tk true false ++
          " representing the output item. ('" ++ jsToString executionResult ++
          "' was returned instead.)"
        itemIndex := some itemIndex
        reservedKeyFound := false }
  else
    match executionResult with
    | .vArr elems =>
      let firstSentence :=
        match elems with
        | firstElem :: _ => "An array of " ++ jsTypeof firstElem ++ "s was returned."
        | [] => "An empty array was returned."
      .error
        { message := "Code doesn't return a single " ++ getTextKey tk false false
          description := firstSentence ++
            " If you need to output multiple items, please use the 'Run Once for All Items' mode instead."
          itemIndex := some itemIndex
          reservedKeyFound := false }
    | other =>
      let returnData := (normalizeItems (.vArr [other])).headD .vUndefined
      match validateItem tk returnData itemIndex with
      | .error e => .error e
      | .ok _ =>
        match validateTopLevelKeys returnData itemIndex with
        | .error e => .error e
        | .ok _ => .ok returnData

/-- The value of the `mustHaveTopLevelN8nKey` scan on arrays where it completes:
true iff some element carries a reserved top-level key. The faithful computation,
including the `TypeError` that `Object.keys` throws when the scan reaches a
`null`/`undefined` element, is `mustHaveTopLevelN8nKeyScan` below; the two agree
whenever the scan returns (`mustHaveTopLevelN8nKeyScan_agrees`). -/
def mustHaveTopLevelN8nKey (items : List JSValue) : Bool :=
  items.any (fun item => (jsOwnKeys item).any isReservedKey)

/-- The full line-by-line computation of `mustHaveTopLevelN8nKey`:
`executionResult.some((item) => Object.keys(item).find((key) => REQUIRED_N8N_ITEM_KEYS.has(key)))`
scans left to right and short-circuits at the first element carrying a reserved key
(whose first reserved key, a non-empty string, is truthy); `none` models the
`TypeError` thrown by `Object.keys` when the scan reaches a `null`/`undefined`
element before any reserved-keyed one. -/
def mustHaveTopLevelN8nKeyScan : List JSValue → Option Bool
  | [] => some false
  | item :: rest =>
    match jsObjectKeys item with
    | none => none
    | some keys =>
      if keys.any isReservedKey then some true
      else mustHaveTopLevelN8nKeyScan rest

/-- The indexed fail-fast `for` loop running `validateTopLevelKeys` over the
raw array elements. -/
def validateTopLevelKeysLoop : List JSValue → Nat → Except ValidationError Unit
  | [], _ => .ok ()
  | item :: rest, index =>
    match validateTopLevelKeys item index with
    | .error e => .error e
    | .ok _ => validateTopLevelKeysLoop rest (index + 1)

/-- The indexed fail-fast `forEach` loop running `validateItem` over the
normalized items. -/
def validateItemLoop (tk : SandboxTextKeys) : List JSValue → Nat → Except ValidationError Unit
  | [], _ => .ok ()
  | item :: rest, index =>
    match validateItem tk item index with
    | .error e => .error e
    | .ok _ => validateItemLoop tk rest (index + 1)

/-- The tail of `validateRunCodeAllItems` after the top-level-key phase:
normalize, validate every normalized item, return the normalized sequence. -/
def normalizeThenValidateAll (tk : SandboxTextKeys) (executionResult : JSValue) :
    Except ValidationError (List JSValue) :=
  let returnData := normalizeItems executionResult
  match validateItemLoop tk returnData 0 with
  | .error e => .error e
  | .ok _ => .ok returnData

/-- `validateRunCodeAllItems`: the all-items entry point. Faithful to the source on
every input on which the reserved-key scan completes (in particular on every
non-array input, where the scan never runs); on an array whose scan reaches a
`null`/`undefined` element before any reserved-keyed one, the real code instead
crashes with the scan's `TypeError` (`mustHaveTopLevelN8nKeyScan` returns `none`)
before any guard decision. -/
def validateRunCodeAllItems (tk : SandboxTextKeys) (executionResult : JSValue) :
    Except ValidationError (List JSValue) :=
  if jsTypeof executionResult != "object" then
    .error
      { message := "Code doesn't return items properly"
        description := "Please return an array of " ++ getTextKey tk false true ++
          ", one for each item you would like to output."
        itemIndex := none
        reservedKeyFound := false }
  else
    match
      (match executionResult with
       | .vArr elems =>
         if mustHaveTopLevelN8nKey elems then validateTopLevelKeysLoop elems 0 else .ok ()
       | _ => .ok ()) with
    | .error e => .error e
    | .ok _ => normalizeThenValidateAll tk executionResult

/-- The text configuration the JavaScript Code node passes to the `Sandbox`
constructor: `{ object: { singular: 'object', plural: 'objects' } }`. -/
def objectTextKeys : SandboxTextKeys := ⟨"object", "objects"⟩

/-- The success condition of `validateItem`, as a predicate on the item alone:
`json` is a structured object and `binary` is absent/undefined or structured. -/
def itemOk (item : JSValue) : Bool :=
  isObject (getProp item "json") &&
    (isUndefined (getProp item "binary") || isObject (getProp item "binary"))

/-- The lowest-index guard violation among the elements of an array result,
with the error `validateTopLevelKeys` reports there. -/
def firstGuardViolation (items : List JSValue) : Option ValidationError :=
  (items.enum.filterMap fun p =>
    match validateTopLevelKeys p.2 p.1 with
    | .error e => some e
    | .ok _ => none).head?

/-- An item that has a reserved key and mixes in an unknown key, whose `json` value
is not a structured object — it violates the item validator and the key guard. -/
def invalidJsonMixedItem : JSValue := .vObj [("json", .vNum 1), ("foo", .vNum 2)]

/-- A single (non-array) item mixing the reserved key `json` with an unknown key. -/
def mixedKeysSingleItem : JSValue := .vObj [("json", .vObj []), ("foo", .vNum 1)]

/-- The spec's mixed all-items example array: the first element carries the reserved
key `json`, the second only the unknown key `notJson`. -/
def mixedReservedDemoItems : List JSValue :=
  [.vObj [("json", .vObj [])], .vObj [("notJson", .vNum 1)]]

/-! ## Basic facts about the embedded operations -/

theorem isObject_isUndefined {v : JSValue} (h : isObject v = true) :
    isUndefined v = false := by
  cases v <;> simp_all [isObject, isUndefined]

theorem jsObjectKeys_eq_some {v : JSValue} {keys : List String}
    (h : jsObjectKeys v = some keys) : keys = jsOwnKeys v := by
  cases v <;> first
    | exact Option.noConfusion h
    | (injection h with h'; exact h'.symm)

theorem mustHaveTopLevelN8nKeyScan_agrees :
    ∀ (items : List JSValue) (b : Bool), mustHaveTopLevelN8nKeyScan items = some b →
      mustHaveTopLevelN8nKey items = b := by
  intro items
  induction items with
  | nil =>
    intro b h
    injection h
  | cons item rest ih =>
    intro b h
    simp only [mustHaveTopLevelN8nKeyScan] at h
    cases hk : jsObjectKeys item with
    | none => simp [hk] at h
    | some keys =>
      simp only [hk] at h
      by_cases ha : keys.any isReservedKey = true
      · rw [if_pos ha] at h
        injection h with h'
        have hkeys := jsObjectKeys_eq_some hk
        subst hkeys
        show ((item :: rest).any fun it => (jsOwnKeys it).any isReservedKey) = b
        simp only [List.any_cons]
        rw [ha, ← h']
        simp
      · have ha' : keys.any isReservedKey = false := by simpa using ha
        rw [if_neg ha] at h
        have hrest := ih b h
        have hkeys := jsObjectKeys_eq_some hk
        subst hkeys
        show ((item :: rest).any fun it => (jsOwnKeys it).any isReservedKey) = b
        simp only [List.any_cons]
        rw [ha']
        simpa using hrest

theorem scanTopLevelKeys_eq (ks : List String) :
    ∀ (found : Option String) (acc : List String),
      scanTopLevelKeys ks found acc =
        ((match found with
          | some k => some k
          | none => ks.find? isReservedKey),
         acc ++ ks.filter (fun k => !isReservedKey k)) := by
  induction ks with
  | nil =>
    intro found acc
    cases found <;> simp [scanTopLevelKeys]
  | cons key rest ih =>
    intro found acc
    by_cases hk : isReservedKey key = true
    · cases found <;>
        simp [scanTopLevelKeys, hk, ih, List.find?_cons_of_pos _ hk, List.filter_cons]
    · have hk' : isReservedKey key = false := by simpa using hk
      have hfind := List.find?_cons_of_neg rest (show ¬isReservedKey key = true from by simp [hk'])
      cases found <;> simp [scanTopLevelKeys, hk', ih, hfind, List.filter_cons]

theorem validateTopLevelKeys_eq (item : JSValue) (i : Nat) :
    validateTopLevelKeys item i =
      match (jsOwnKeys item).filter (fun k => !isReservedKey k) with
      | [] => .ok ()
      | u :: _ =>
        match (jsOwnKeys item).find? isReservedKey with
        | some r => .error (reservedKeyFoundError r i)
        | none => .error (unknownKeyError u i) := by
  unfold validateTopLevelKeys
  rw [scanTopLevelKeys_eq]
  cases hf : (jsOwnKeys item).filter (fun k => !isReservedKey k) with
  | nil => simp
  | cons u rest =>
    cases hr : (jsOwnKeys item).find? isReservedKey <;> simp [hr]

theorem validateTopLevelKeys_ok_iff (item : JSValue) (i : Nat) :
    validateTopLevelKeys item i = .ok () ↔ (jsOwnKeys item).all isReservedKey = true := by
  rw [validateTopLevelKeys_eq]
  cases hf : (jsOwnKeys item).filter (fun k => !isReservedKey k) with
  | nil =>
    simp only [List.all_eq_true]
    constructor
    · intro _ k hk
      have := List.filter_eq_nil_iff.mp hf k hk
      simpa using this
    · intro _; trivial
  | cons u rest =>
    have hu : u ∈ (jsOwnKeys item).filter (fun k => !isReservedKey k) := by
      rw [hf]; exact List.mem_cons_self u rest
    have hmem := List.mem_filter.mp hu
    constructor
    · intro h
      cases hfind : (jsOwnKeys item).find? isReservedKey <;> rw [hfind] at h <;> cases h
    · intro hall
      exact absurd (List.all_eq_true.mp hall u hmem.1) (by simpa using hmem.2)

theorem validateTopLevelKeysLoop_ok_iff (xs : List JSValue) :
    ∀ i, validateTopLevelKeysLoop xs i = .ok () ↔
      ∀ x ∈ xs, (jsOwnKeys x).all isReservedKey = true := by
  induction xs with
  | nil => intro i; simp [validateTopLevelKeysLoop]
  | cons x rest ih =>
    intro i
    simp only [validateTopLevelKeysLoop]
    cases hx : validateTopLevelKeys x i with
    | error e =>
      constructor
      · intro h; cases h
      · intro h
        have hok := (validateTopLevelKeys_ok_iff x i).mpr (h x (List.mem_cons_self x rest))
        rw [hx] at hok; cases hok
    | ok u =>
      cases u
      have hx' := (validateTopLevelKeys_ok_iff x i).mp hx
      rw [ih (i + 1)]
      constructor
      · intro h y hy
        rcases List.mem_cons.mp hy with rfl | hy'
        · exact hx'
        · exact h y hy'
      · intro h y hy
        exact h y (List.mem_cons_of_mem x hy)

theorem validateItem_ok_iff (tk : SandboxTextKeys) (item : JSValue) (i : Nat) :
    validateItem tk item i = .ok () ↔ itemOk item = true := by
  unfold validateItem itemOk
  generalize getProp item "json" = j
  generalize getProp item "binary" = b
  cases j <;> cases b <;> simp [isUndefined, isObject]

theorem validateItem_error_reservedKeyFound (tk : SandboxTextKeys) (item : JSValue)
    (i : Nat) (e : ValidationError) (h : validateItem tk item i = .error e) :
    e.reservedKeyFound = false := by
  simp only [validateItem] at h
  split at h
  · cases h; rfl
  · split at h
    · cases h; rfl
    · cases h

theorem validateItemLoop_ok_iff (tk : SandboxTextKeys) (xs : List JSValue) :
    ∀ i, validateItemLoop tk xs i = .ok () ↔ ∀ x ∈ xs, itemOk x = true := by
  induction xs with
  | nil => intro i; simp [validateItemLoop]
  | cons x rest ih =>
    intro i
    simp only [validateItemLoop]
    cases hx : validateItem tk x i with
    | error e =>
      constructor
      · intro h; cases h
      · intro h
        have hok := (validateItem_ok_iff tk x i).mpr (h x (List.mem_cons_self x rest))
        rw [hx] at hok; cases hok
    | ok u =>
      cases u
      have hx' := (validateItem_ok_iff tk x i).mp hx
      rw [ih (i + 1)]
      constructor
      · intro h y hy
        rcases List.mem_cons.mp hy with rfl | hy'
        · exact hx'
        · exact h y hy'
      · intro h y hy
        exact h y (List.mem_cons_of_mem x hy)

theorem validateItemLoop_error (tk : SandboxTextKeys) (xs : List JSValue) :
    ∀ i e, validateItemLoop tk xs i = .error e →
      ∃ k, k < xs.length ∧ validateItem tk (xs.getD k .vUndefined) (i + k) = .error e := by
  induction xs with
  | nil => intro i e h; cases h
  | cons x rest ih =>
    intro i e h
    simp only [validateItemLoop] at h
    cases hx : validateItem tk x i with
    | error e' =>
      rw [hx] at h
      cases h
      exact ⟨0, by simp, by simpa using hx⟩
    | ok u =>
      cases u
      rw [hx] at h
      obtain ⟨k, hk, hv⟩ := ih (i + 1) e h
      refine ⟨k + 1, by simpa using hk, ?_⟩
      have harith : i + (k + 1) = i + 1 + k := by omega
      simpa [harith] using hv

theorem normalizeOne_of_reserved {v : JSValue}
    (h : (jsOwnKeys v).any isReservedKey = true) : normalizeOne v = v := by
  unfold normalizeOne
  simp [h]

theorem normalizeOne_hasReserved (v : JSValue) :
    (jsOwnKeys (normalizeOne v)).any isReservedKey = true := by
  unfold normalizeOne
  cases h : (jsOwnKeys v).any isReservedKey with
  | true => simp [h]
  | false =>
    simp only [h, Bool.false_eq_true, if_false]
    rfl

theorem normalizeOne_allReserved {v : JSValue}
    (h : (jsOwnKeys v).all isReservedKey = true ∨ (jsOwnKeys v).any isReservedKey = false) :
    (jsOwnKeys (normalizeOne v)).all isReservedKey = true := by
  unfold normalizeOne
  cases hA : (jsOwnKeys v).any isReservedKey with
  | true =>
    simp only [hA, if_true]
    rcases h with hall | hnone
    · exact hall
    · rw [hA] at hnone; cases hnone
  | false =>
    simp only [hA, Bool.false_eq_true, if_false]
    rfl

theorem map_normalizeOne_fixpoint (out : List JSValue)
    (h : ∀ y ∈ out, (jsOwnKeys y).any isReservedKey = true) :
    out.map normalizeOne = out := by
  have hcongr : out.map normalizeOne = out.map id :=
    List.map_congr_left (fun a ha => normalizeOne_of_reserved (h a ha))
  simpa using hcongr

/-- `validateRunCodeAllItems` on an array literal decomposes into the guard
phase followed by normalization and per-item validation. -/
theorem validateRunCodeAllItems_vArr (tk : SandboxTextKeys) (elems : List JSValue) :
    validateRunCodeAllItems tk (.vArr elems) =
      match
        (if mustHaveTopLevelN8nKey elems then validateTopLevelKeysLoop elems 0 else .ok ()) with
      | .error e => .error e
      | .ok _ => normalizeThenValidateAll tk (.vArr elems) := rfl

theorem validateTopLevelKeysLoop_eq_firstViolation (xs : List JSValue) :
    ∀ i, validateTopLevelKeysLoop xs i =
      match
        ((List.enumFrom i xs).filterMap fun p =>
          match validateTopLevelKeys p.2 p.1 with
          | .error e => some e
          | .ok _ => none).head? with
      | some e => .error e
      | none => .ok () := by
  induction xs with
  | nil => intro i; rfl
  | cons x rest ih =>
    intro i
    simp only [validateTopLevelKeysLoop, List.enumFrom, List.filterMap_cons]
    cases hx : validateTopLevelKeys x i with
    | error e => simp [hx]
    | ok u =>
      cases u
      rw [ih (i + 1)]

/-! ## Claim theorems -/

/-- Claim C3, counterexample: `validateRunCodeAllItems(undefined)` does raise — the
`typeof !== 'object'` gate rejects `undefined` (`typeof undefined === 'undefined'`),
so the call throws "Code doesn't return items properly" instead of returning the
empty sequence. -/
theorem allItems_undefined_raises :
    validateRunCodeAllItems objectTextKeys .vUndefined =
      .error
        { message := "Code doesn't return items properly"
          description :=
            "Please return an array of objects, one for each item you would like to output."
          itemIndex := none
          reservedKeyFound := false } := rfl

/-- Claim C3, amended: in all-items mode an absent/`undefined` execution result is
rejected by the non-object gate (`typeof undefined !== 'object'`) and raises the
"Code doesn't return items properly" `ValidationError` with no item index; it is
not treated as zero items. -/
theorem allItems_undefined_error (tk : SandboxTextKeys) :
    validateRunCodeAllItems tk .vUndefined =
      .error
        { message := "Code doesn't return items properly"
          description := "Please return an array of " ++ getTextKey tk false true ++
            ", one for each item you would like to output."
          itemIndex := none
          reservedKeyFound := false } := rfl

/-- Claim C4: for every value whose `typeof` is not `'object'` (numbers, strings,
booleans, `undefined`), `validateRunCodeEachItem` raises the non-object-result
`ValidationError` with the "Code doesn't return a/an <noun>" message and
`itemIndex = i`, interpolating the stringified value. -/
theorem eachItem_nonObject_error (tk : SandboxTextKeys) (v : JSValue) (i : Nat)
    (h : jsTypeof v ≠ "object") :
    validateRunCodeEachItem tk v i =
      .error
        { message := "Code doesn't return " ++ getTextKey tk true false
          description := "Please return " ++ getTextKey tk true false ++
            " representing the output item. ('" ++ jsToString v ++ "' was returned instead.)"
          itemIndex := some i
          reservedKeyFound := false } := by
  have hb : (jsTypeof v != "object") = true := by simp [bne_iff_ne, h]
  unfold validateRunCodeEachItem
  simp [hb]

/-- Witness for C4 at the concrete input `1` and item index `5`. -/
theorem eachItem_nonObject_error_witness :
    jsTypeof (JSValue.vNum 1) ≠ "object" ∧
    validateRunCodeEachItem objectTextKeys (.vNum 1) 5 =
      .error
        { message := "Code doesn't return an object"
          description :=
            "Please return an object representing the output item. ('1' was returned instead.)"
          itemIndex := some 5
          reservedKeyFound := false } :=
  ⟨by decide, eachItem_nonObject_error objectTextKeys (.vNum 1) 5 (by decide)⟩

/-- Claim C7: for every array `a` and index `i`, `validateRunCodeEachItem` raises the
unexpected-array `ValidationError` with `itemIndex = i`, whose description opens with
"An empty array was returned." when `a` is empty and with
"An array of <typeof first element>s was returned." otherwise. -/
theorem eachItem_array_error (tk : SandboxTextKeys) (a : List JSValue) (i : Nat) :
    validateRunCodeEachItem tk (.vArr a) i =
      .error
        { message := "Code doesn't return a single " ++ getTextKey tk false false
          description :=
            (match a with
             | firstElem :: _ => "An array of " ++ jsTypeof firstElem ++ "s was returned."
             | [] => "An empty array was returned.") ++
            " If you need to output multiple items, please use the 'Run Once for All Items' mode instead."
          itemIndex := some i
          reservedKeyFound := false } := by
  cases a <;> rfl

/-- Claim C9: `getTextKey` without the article option returns the singular or plural
phrase unchanged as selected; with the article option it prefixes "an" exactly when the
selected phrase starts with one of the lowercase characters a/e/i/o/u and "a" otherwise
— a pure string check, lowercase only, as the vowel-leading, consonant-leading and
capitalized-vowel instances show. -/
theorem getTextKey_article_selection (tk : SandboxTextKeys) (plural : Bool) :
    (getTextKey tk false plural = (if plural then tk.plural else tk.singular)) ∧
    (getTextKey tk true plural =
      (if ["a", "e", "i", "o", "u"].any
          (fun c => jsStartsWith (if plural then tk.plural else tk.singular) c) then
        "an " ++ (if plural then tk.plural else tk.singular)
      else
        "a " ++ (if plural then tk.plural else tk.singular))) ∧
    getTextKey objectTextKeys true false = "an object" ∧
    getTextKey ⟨"result", "results"⟩ true false = "a result" ∧
    getTextKey ⟨"Apple", "Apples"⟩ true false = "a Apple" :=
  ⟨rfl, rfl, rfl, rfl, rfl⟩

/-- Claim C5: `validateTopLevelKeys` partitions the item's own top-level keys into
reserved and unknown; it passes silently when there is no unknown key, raises
`ReservedKeyFoundError` naming the first reserved key in iteration order and the item
index when an unknown key coexists with a reserved key, and raises the generic
unknown-key error naming the first unknown key in iteration order otherwise. -/
theorem guard_partition (item : JSValue) (i : Nat) :
    ((jsOwnKeys item).filter (fun k => !isReservedKey k) = [] →
      validateTopLevelKeys item i = .ok ()) ∧
    (∀ u rest r,
      (jsOwnKeys item).filter (fun k => !isReservedKey k) = u :: rest →
      (jsOwnKeys item).find? isReservedKey = some r →
      validateTopLevelKeys item i = .error (reservedKeyFoundError r i)) ∧
    (∀ u rest,
      (jsOwnKeys item).filter (fun k => !isReservedKey k) = u :: rest →
      (jsOwnKeys item).find? isReservedKey = none →
      validateTopLevelKeys item i = .error (unknownKeyError u i)) := by
  refine ⟨?_, ?_, ?_⟩
  · intro hf
    rw [validateTopLevelKeys_eq, hf]
  · intro u rest r hf hr
    rw [validateTopLevelKeys_eq, hf, hr]
  · intro u rest hf hr
    rw [validateTopLevelKeys_eq, hf, hr]

/-- Witness for C5 on three concrete items covering all three branches:
all-reserved keys pass, a reserved/unknown mix raises `ReservedKeyFoundError` naming
the first reserved key, unknown-only keys raise the generic error naming the first
unknown key. -/
theorem guard_partition_witness :
    validateTopLevelKeys (.vObj [("json", .vNum 1), ("binary", .vNum 2)]) 0 = .ok () ∧
    validateTopLevelKeys (.vObj [("foo", .vNum 1), ("json", .vNum 2)]) 1 =
      .error (reservedKeyFoundError "json" 1) ∧
    validateTopLevelKeys (.vObj [("foo", .vNum 1), ("bar", .vNum 2)]) 2 =
      .error (unknownKeyError "foo" 2) :=
  ⟨(guard_partition (.vObj [("json", .vNum 1), ("binary", .vNum 2)]) 0).1 rfl,
   (guard_partition (.vObj [("foo", .vNum 1), ("json", .vNum 2)]) 1).2.1 "foo" [] "json" rfl rfl,
   (guard_partition (.vObj [("foo", .vNum 1), ("bar", .vNum 2)]) 2).2.2 "foo" ["bar"] rfl rfl⟩

theorem jsonPropertyError_ne_binaryPropertyError (tk : SandboxTextKeys) (i : Nat) :
    jsonPropertyError tk i ≠ binaryPropertyError tk i := by
  intro h
  have hm := congrArg ValidationError.message h
  simp only [jsonPropertyError, binaryPropertyError] at hm
  have hl := congrArg String.length hm
  rw [String.length_append, String.length_append] at hl
  have h1 : ("A 'json' property isn't " : String).length = 24 := rfl
  have h2 : ("A 'binary' property isn't " : String).length = 26 := rfl
  rw [h1, h2] at hl
  omega

/-- Claim C6: `validateItem` raises the "A 'json' property isn't a/an <noun>" error at
index `i` exactly when the item's `json` field is undefined or not a structured object;
given `json` is valid, it raises the analogous `binary` error at index `i` exactly when
`binary` is defined and not a structured object; and no field other than `json` and
`binary` affects the outcome. -/
theorem itemValidator_fields (tk : SandboxTextKeys) (item : JSValue) (i : Nat) :
    (validateItem tk item i = .error (jsonPropertyError tk i) ↔
      (isUndefined (getProp item "json") = true ∨ isObject (getProp item "json") = false)) ∧
    (isObject (getProp item "json") = true →
      (validateItem tk item i = .error (binaryPropertyError tk i) ↔
        (isUndefined (getProp item "binary") = false ∧
          isObject (getProp item "binary") = false))) ∧
    (∀ item₂ : JSValue, getProp item₂ "json" = getProp item "json" →
      getProp item₂ "binary" = getProp item "binary" →
      validateItem tk item₂ i = validateItem tk item i) := by
  have hcond :
      ((isUndefined (getProp item "json") || !isObject (getProp item "json")) = true) ↔
        (isUndefined (getProp item "json") = true ∨ isObject (getProp item "json") = false) := by
    simp [Bool.or_eq_true]
  refine ⟨?_, ?_, ?_⟩
  · by_cases h1 : (isUndefined (getProp item "json") || !isObject (getProp item "json")) = true
    · have hv : validateItem tk item i = .error (jsonPropertyError tk i) := by
        simp only [validateItem]
        rw [if_pos h1]
      exact iff_of_true hv (hcond.mp h1)
    · have hv : validateItem tk item i ≠ .error (jsonPropertyError tk i) := by
        simp only [validateItem]
        rw [if_neg h1]
        by_cases h2 :
            (!isUndefined (getProp item "binary") && !isObject (getProp item "binary")) = true
        · rw [if_pos h2]
          intro hc
          injection hc with hc'
          exact jsonPropertyError_ne_binaryPropertyError tk i hc'.symm
        · rw [if_neg h2]
          intro hc
          exact Except.noConfusion hc
      exact iff_of_false hv (fun hr => h1 (hcond.mpr hr))
  · intro hjson
    have hju : isUndefined (getProp item "json") = false := isObject_isUndefined hjson
    have h1 : ¬(isUndefined (getProp item "json") || !isObject (getProp item "json")) = true := by
      simp [hju, hjson]
    by_cases h2 :
        (!isUndefined (getProp item "binary") && !isObject (getProp item "binary")) = true
    · have hv : validateItem tk item i = .error (binaryPropertyError tk i) := by
        simp only [validateItem]
        rw [if_neg h1, if_pos h2]
      have hrhs : isUndefined (getProp item "binary") = false ∧
          isObject (getProp item "binary") = false := by
        simpa [Bool.and_eq_true] using h2
      exact iff_of_true hv hrhs
    · have hv : validateItem tk item i = .ok () := by
        simp only [validateItem]
        rw [if_neg h1, if_neg h2]
      refine iff_of_false (fun hc => ?_) (fun hr => h2 (by simp [hr.1, hr.2]))
      rw [hv] at hc
      exact Except.noConfusion hc
  · intro item₂ hj hb
    simp only [validateItem, hj, hb]

/-- Witness for C6 at the spec's own example `{ json: { x: 1 }, binary: [1, 2] }` and
index `3`: the `binary` field is an array, so the malformed-binary error is raised. -/
theorem itemValidator_fields_witness :
    isObject (getProp (.vObj [("json", .vObj [("x", .vNum 1)]),
        ("binary", .vArr [.vNum 1, .vNum 2])]) "json") = true ∧
    validateItem objectTextKeys
        (.vObj [("json", .vObj [("x", .vNum 1)]), ("binary", .vArr [.vNum 1, .vNum 2])]) 3 =
      .error (binaryPropertyError objectTextKeys 3) :=
  ⟨rfl,
   ((itemValidator_fields objectTextKeys
       (.vObj [("json", .vObj [("x", .vNum 1)]), ("binary", .vArr [.vNum 1, .vNum 2])]) 3).2.1
     rfl).mpr ⟨rfl, rfl⟩⟩

/-- `validateRunCodeEachItem` on a plain object decomposes into normalize, then
`validateItem`, then `validateTopLevelKeys`, in that order. -/
theorem validateRunCodeEachItem_vObj (tk : SandboxTextKeys)
    (fields : List (String × JSValue)) (i : Nat) :
    validateRunCodeEachItem tk (.vObj fields) i =
      (let returnData := (normalizeItems (.vArr [JSValue.vObj fields])).headD .vUndefined
       match validateItem tk returnData i with
       | .error e => .error e
       | .ok _ =>
         match validateTopLevelKeys returnData i with
         | .error e => .error e
         | .ok _ => .ok returnData) := rfl

/-- Claim C2, counterexample: `invalidJsonMixedItem` violates both the Item Validator
and the Top-Level Key Guard, yet in all-items mode `validateRunCodeAllItems` raises the
guard's `ReservedKeyFoundError`, not the Item Validator's error — the guard runs before
normalization there, so the claimed Classifier → Normalizer → Item Validator → Guard
order does not hold for both entry points. -/
theorem pipeline_order_counterexample :
    validateItem objectTextKeys invalidJsonMixedItem 0 =
      .error (jsonPropertyError objectTextKeys 0) ∧
    validateTopLevelKeys invalidJsonMixedItem 0 =
      .error (reservedKeyFoundError "json" 0) ∧
    validateRunCodeAllItems objectTextKeys (.vArr [invalidJsonMixedItem]) =
      .error (reservedKeyFoundError "json" 0) ∧
    reservedKeyFoundError "json" 0 ≠ jsonPropertyError objectTextKeys 0 := by
  refine ⟨rfl, rfl, rfl, ?_⟩
  decide

/-- Claim C2, amended: single-item mode runs Classifier → Normalizer → Item Validator
→ Top-Level Key Guard, so for an item (carrying a reserved key) that violates both
checks the Item Validator's error is raised there; all-items mode instead runs the
guard on the raw array elements before normalization, so the guard's error is the one
raised in that mode. -/
theorem pipeline_order_amended (tk : SandboxTextKeys) (v : JSValue) (i : Nat)
    (eI eG : ValidationError)
    (hres : (jsOwnKeys v).any isReservedKey = true)
    (hnarr : isArray v = false)
    (hobj : jsTypeof v = "object")
    (hitem : validateItem tk v i = .error eI)
    (hguard : validateTopLevelKeys v 0 = .error eG) :
    validateRunCodeEachItem tk v i = .error eI ∧
    validateRunCodeAllItems tk (.vArr [v]) = .error eG := by
  constructor
  · cases v with
    | vUndefined => simp [jsTypeof] at hobj
    | vBool b => simp [jsTypeof] at hobj
    | vNum n => simp [jsTypeof] at hobj
    | vStr s => simp [jsTypeof] at hobj
    | vArr elems => simp [isArray] at hnarr
    | vNull => simp [jsOwnKeys] at hres
    | vObj fields =>
      have hnorm :
          (normalizeItems (.vArr [JSValue.vObj fields])).headD .vUndefined =
            JSValue.vObj fields := by
        simp [normalizeItems, normalizeOne_of_reserved hres]
      rw [validateRunCodeEachItem_vObj]
      simp only [hnorm, hitem]
  · rw [validateRunCodeAllItems_vArr]
    have hm : mustHaveTopLevelN8nKey [v] = true := by
      simp [mustHaveTopLevelN8nKey, hres]
    have hloop : validateTopLevelKeysLoop [v] 0 = .error eG := by
      simp [validateTopLevelKeysLoop, hguard]
    simp only [hm, if_true, hloop]

/-- Witness for C2's amended claim at `invalidJsonMixedItem` and item index `7`. -/
theorem pipeline_order_amended_witness :
    (jsOwnKeys invalidJsonMixedItem).any isReservedKey = true ∧
    validateRunCodeEachItem objectTextKeys invalidJsonMixedItem 7 =
      .error (jsonPropertyError objectTextKeys 7) ∧
    validateRunCodeAllItems objectTextKeys (.vArr [invalidJsonMixedItem]) =
      .error (reservedKeyFoundError "json" 0) := by
  have h := pipeline_order_amended objectTextKeys invalidJsonMixedItem 7
    (jsonPropertyError objectTextKeys 7) (reservedKeyFoundError "json" 0)
    rfl rfl rfl rfl rfl
  exact ⟨rfl, h.1, h.2⟩

/-- Claim C1, counterexample: on the array `[null, { json: 1 }]` the second element
carries the reserved key `json`, so the claim requires the guard to run against every
element before normalization — but the reserved-key scan calls `Object.keys(null)` on
the first element, which throws `TypeError`, so the call crashes before any guard
decision and the claimed gating does not hold for every array. -/
theorem allItems_guard_gating_counterexample :
    jsObjectKeys JSValue.vNull = none ∧
    mustHaveTopLevelN8nKeyScan [JSValue.vNull, JSValue.vObj [("json", JSValue.vNum 1)]] =
      none ∧
    mustHaveTopLevelN8nKey [JSValue.vNull, JSValue.vObj [("json", JSValue.vNum 1)]] =
      true :=
  ⟨rfl, rfl, rfl⟩

/-- Claim C1, amended: for every array result on which the reserved-key scan completes
— `mustHaveTopLevelN8nKeyScan` returns a boolean instead of the `TypeError` that
`Object.keys` throws when a `null`/`undefined` element is reached before any
reserved-keyed one — `validateRunCodeAllItems` runs the top-level key guard over the
elements in index order, stopping at the first violation, if and only if the scan
found an element carrying a reserved top-level key; when it found none, the guard is
skipped and the pass goes straight to normalization and per-item validation. -/
theorem allItems_guard_gating (tk : SandboxTextKeys) (elems : List JSValue) (b : Bool)
    (hscan : mustHaveTopLevelN8nKeyScan elems = some b) :
    validateRunCodeAllItems tk (.vArr elems) =
      if b then
        match firstGuardViolation elems with
        | some e => .error e
        | none => normalizeThenValidateAll tk (.vArr elems)
      else
        normalizeThenValidateAll tk (.vArr elems) := by
  have hm : mustHaveTopLevelN8nKey elems = b :=
    mustHaveTopLevelN8nKeyScan_agrees elems b hscan
  rw [validateRunCodeAllItems_vArr]
  cases b with
  | false => simp [hm]
  | true =>
    simp only [hm, if_true]
    rw [validateTopLevelKeysLoop_eq_firstViolation]
    unfold firstGuardViolation
    rw [List.enum_eq_enumFrom]
    cases hX : ((List.enumFrom 0 elems).filterMap fun p =>
        match validateTopLevelKeys p.2 p.1 with
        | .error e => some e
        | .ok _ => none).head? with
    | none => simp [hX]
    | some e => simp [hX]

/-- Witness for C1's amended claim at the spec's mixed example: the scan completes
with `true` (short-circuiting on the first, reserved-keyed element), the guard runs,
and the second element's unknown key is reported at index 1. -/
theorem allItems_guard_gating_witness :
    mustHaveTopLevelN8nKeyScan mixedReservedDemoItems = some true ∧
    validateRunCodeAllItems objectTextKeys (.vArr mixedReservedDemoItems) =
      .error (unknownKeyError "notJson" 1) :=
  ⟨rfl,
   (allItems_guard_gating objectTextKeys mixedReservedDemoItems true rfl).trans (by rfl)⟩

/-- Claim C10: in all-items mode the top-level key guard applies only to array results.
A non-array object result — even one mixing a reserved key with unknown keys — goes
straight to normalization, and any error the call raises comes from `validateItem` on
some normalized item (so it is never a `ReservedKeyFoundError` or the unknown-key
error). -/
theorem allItems_nonArray_skips_guard (tk : SandboxTextKeys) (v : JSValue)
    (hobj : jsTypeof v = "object") (hnarr : isArray v = false) :
    validateRunCodeAllItems tk v = normalizeThenValidateAll tk v ∧
    ∀ e, validateRunCodeAllItems tk v = .error e →
      e.reservedKeyFound = false ∧
      ∃ k, k < (normalizeItems v).length ∧
        validateItem tk ((normalizeItems v).getD k .vUndefined) k = .error e := by
  have hdec : validateRunCodeAllItems tk v = normalizeThenValidateAll tk v := by
    cases v with
    | vNull => rfl
    | vObj fields => rfl
    | vArr elems => simp [isArray] at hnarr
    | vUndefined => simp [jsTypeof] at hobj
    | vBool b => simp [jsTypeof] at hobj
    | vNum n => simp [jsTypeof] at hobj
    | vStr s => simp [jsTypeof] at hobj
  refine ⟨hdec, ?_⟩
  intro e he
  rw [hdec] at he
  simp only [normalizeThenValidateAll] at he
  cases hl : validateItemLoop tk (normalizeItems v) 0 with
  | ok u => rw [hl] at he; simp at he
  | error e' =>
    rw [hl] at he
    injection he with he'
    subst he'
    obtain ⟨k, hk, hv⟩ := validateItemLoop_error tk (normalizeItems v) 0 e' hl
    exact ⟨validateItem_error_reservedKeyFound tk _ _ _ hv, k, hk, by simpa using hv⟩

/-- Witness for C10 at the concrete mixed single item `{ json: {}, foo: 1 }`. -/
theorem allItems_nonArray_skips_guard_witness :
    jsTypeof mixedKeysSingleItem = "object" ∧
    isArray mixedKeysSingleItem = false ∧
    validateRunCodeAllItems objectTextKeys mixedKeysSingleItem =
      normalizeThenValidateAll objectTextKeys mixedKeysSingleItem :=
  ⟨rfl, rfl, (allItems_nonArray_skips_guard objectTextKeys mixedKeysSingleItem rfl rfl).1⟩

theorem allItems_rerun (tk : SandboxTextKeys) (elems out : List JSValue)
    (hsafe : ∀ x ∈ elems, (jsOwnKeys x).all isReservedKey = true ∨
      (jsOwnKeys x).any isReservedKey = false)
    (hnv : normalizeThenValidateAll tk (.vArr elems) = .ok out) :
    validateRunCodeAllItems tk (.vArr out) = .ok out := by
  simp only [normalizeThenValidateAll] at hnv
  cases hl : validateItemLoop tk (normalizeItems (.vArr elems)) 0 with
  | error e => rw [hl] at hnv; simp at hnv
  | ok u =>
    cases u
    rw [hl] at hnv
    injection hnv with hout
    have hmap : normalizeItems (.vArr elems) = elems.map normalizeOne := rfl
    have hres : ∀ y ∈ out, (jsOwnKeys y).any isReservedKey = true := by
      intro y hy
      rw [← hout, hmap] at hy
      obtain ⟨x, hx, rfl⟩ := List.mem_map.mp hy
      exact normalizeOne_hasReserved x
    have hallres : ∀ y ∈ out, (jsOwnKeys y).all isReservedKey = true := by
      intro y hy
      rw [← hout, hmap] at hy
      obtain ⟨x, hx, rfl⟩ := List.mem_map.mp hy
      exact normalizeOne_allReserved (hsafe x hx)
    have hguard : validateTopLevelKeysLoop out 0 = .ok () :=
      (validateTopLevelKeysLoop_ok_iff out 0).mpr hallres
    have hnorm : normalizeItems (.vArr out) = out := by
      show out.map normalizeOne = out
      exact map_normalizeOne_fixpoint out hres
    have hlout : validateItemLoop tk out 0 = .ok () := by
      rw [hout] at hl
      exact hl
    have htail : normalizeThenValidateAll tk (.vArr out) = .ok out := by
      simp only [normalizeThenValidateAll, hnorm, hlout]
    rw [validateRunCodeAllItems_vArr]
    cases hmo : mustHaveTopLevelN8nKey out with
    | true =>
      simp only [hmo, if_true, hguard]
      exact htail
    | false =>
      simp only [hmo, Bool.false_eq_true, if_false]
      exact htail

/-- Claim C8, counterexample: `validateRunCodeAllItems` succeeds on the non-array
single item `{ json: {}, foo: 1 }` (the guard never sees it), but re-running it on the
returned sequence raises `ReservedKeyFoundError` — so it is not idempotent on every
successful input. -/
theorem allItems_idempotence_counterexample :
    validateRunCodeAllItems objectTextKeys mixedKeysSingleItem =
      .ok [mixedKeysSingleItem] ∧
    validateRunCodeAllItems objectTextKeys (.vArr [mixedKeysSingleItem]) =
      .error (reservedKeyFoundError "json" 0) :=
  ⟨rfl, rfl⟩

/-- Claim C8, amended: `validateRunCodeAllItems` is idempotent on successful *array*
inputs — whenever it succeeds on an array result, re-running it on the returned
(normalized, reserved-key-bearing) sequence succeeds and returns an equal sequence.
(For a successful non-array single item that mixes a reserved key with unknown keys,
the re-run instead raises `ReservedKeyFoundError`, as the counterexample shows.) -/
theorem allItems_idempotent_on_arrays (tk : SandboxTextKeys) (elems out : List JSValue)
    (h : validateRunCodeAllItems tk (.vArr elems) = .ok out) :
    validateRunCodeAllItems tk (.vArr out) = .ok out := by
  rw [validateRunCodeAllItems_vArr] at h
  cases hm : mustHaveTopLevelN8nKey elems with
  | true =>
    simp only [hm, if_true] at h
    cases hg : validateTopLevelKeysLoop elems 0 with
    | error e => rw [hg] at h; simp at h
    | ok u =>
      cases u
      rw [hg] at h
      have hall := (validateTopLevelKeysLoop_ok_iff elems 0).mp hg
      exact allItems_rerun tk elems out (fun x hx => Or.inl (hall x hx)) h
  | false =>
    simp only [hm, Bool.false_eq_true, if_false] at h
    have hnone : ∀ x ∈ elems, (jsOwnKeys x).any isReservedKey = false := by
      intro x hx
      have hm' : elems.any (fun item => (jsOwnKeys item).any isReservedKey) = false := hm
      simpa using List.any_eq_false.mp hm' x hx
    exact allItems_rerun tk elems out (fun x hx => Or.inr (hnone x hx)) h

/-- Witness for C8's amended claim: a successful array run and its successful,
equal-valued re-run. -/
theorem allItems_idempotent_on_arrays_witness :
    validateRunCodeAllItems objectTextKeys (.vArr [.vObj [("a", .vNum 1)]]) =
      .ok [.vObj [("json", .vObj [("a", .vNum 1)])]] ∧
    validateRunCodeAllItems objectTextKeys (.vArr [.vObj [("json", .vObj [("a", .vNum 1)])]]) =
      .ok [.vObj [("json", .vObj [("a", .vNum 1)])]] :=
  ⟨rfl,
   allItems_idempotent_on_arrays objectTextKeys [.vObj [("a", .vNum 1)]]
     [.vObj [("json", .vObj [("a", .vNum 1)])]] rfl⟩
